import Mathlib

/-! Shallow embedding of the webhook message validation engine (models.rs and
client.rs of the webhook client library).

Rust `Result<(), String>` becomes `Except String Unit`.  Operations that take
`&mut MessageContext` become functions `MessageContext → ... →
MessageContext × Except String Unit`: the returned context is the state of the
mutable borrow after the call, including mutations that happened before an
error was returned (Rust mutations are not rolled back by `?`).
`HashSet<String>` is modelled as a `List String` used only through membership
and insert-if-absent, which matches the set semantics the source relies on.
String lengths use `String.length`.
-/

namespace Webhook

/-- The closed numeric range of models.rs, monomorphised to `Nat` (every use
in the source instantiates `T = usize`).  Field order follows the source
struct: `max_allowed` first, `min_allowed` second. -/
structure Interval where
  max_allowed : Nat
  min_allowed : Nat
  deriving Repr, DecidableEq

def Interval.from_min_max (min_allowed max_allowed : Nat) : Interval :=
  { min_allowed := min_allowed, max_allowed := max_allowed }

def Interval.contains (i : Interval) (value : Nat) : Bool :=
  decide (i.min_allowed ≤ value) && decide (i.max_allowed ≥ value)

/-- The validation context of models.rs: seen custom ids, the running embed
character counter, and the per-action-row button counter. -/
structure MessageContext where
  custom_ids : List String
  embeds_character_counter : Nat
  button_count_in_action_row : Nat
  deriving Repr, DecidableEq

def MessageContext.new : MessageContext :=
  { custom_ids := [], button_count_in_action_row := 0, embeds_character_counter := 0 }

/-- Error message built by `interval_check` in models.rs via `format!`. -/
def intervalErrorMsg (field_name : String) (value : Nat) (i : Interval) : String :=
  field_name ++ " (" ++ toString value ++ ") not in the [" ++
    toString i.min_allowed ++ ", " ++ toString i.max_allowed ++ "] interval"

def interval_check (interval : Interval) (value_to_test : Nat)
    (field_name : String) : Except String Unit :=
  if !(interval.contains value_to_test) then
    Except.error (intervalErrorMsg field_name value_to_test interval)
  else
    Except.ok ()

/- Interval constants, from the `interval_getter!` invocations in models.rs. -/

def Message.action_row_count_interval : Interval := Interval.from_min_max 0 5

def Message.label_len_interval : Interval := Interval.from_min_max 0 80

def Message.custom_id_len_interval : Interval := Interval.from_min_max 1 100

def Message.embed_total_text_len_interval : Interval := Interval.from_min_max 0 6000

def Embed.title_len_interval : Interval := Interval.from_min_max 0 256

def Embed.description_len_interval : Interval := Interval.from_min_max 0 4096

def Embed.fields_len_interval : Interval := Interval.from_min_max 0 25

def EmbedField.name_len_interval : Interval := Interval.from_min_max 0 256

def EmbedField.value_len_interval : Interval := Interval.from_min_max 0 1024

def EmbedFooter.text_len_interval : Interval := Interval.from_min_max 0 2048

def EmbedAuthor.name_len_interval : Interval := Interval.from_min_max 0 256

def ActionRow.button_count_interval : Interval := Interval.from_min_max 0 5

def ActionRow.select_menu_count_interval : Interval := Interval.from_min_max 0 1

/- Entity tree, from the struct definitions of models.rs. -/

structure EmbedField where
  name : String
  value : String
  inline : Bool
  deriving Repr, DecidableEq

def EmbedField.new (name value : String) (inline : Bool) : EmbedField :=
  { name := name, value := value, inline := inline }

structure EmbedFooter where
  text : String
  icon_url : Option String
  deriving Repr, DecidableEq

def EmbedFooter.new (text : String) (icon_url : Option String) : EmbedFooter :=
  { text := text, icon_url := icon_url }

structure EmbedUrlSource where
  url : String
  deriving Repr, DecidableEq

structure EmbedProvider where
  name : String
  url : String
  deriving Repr, DecidableEq

structure EmbedAuthor where
  name : String
  url : Option String
  icon_url : Option String
  deriving Repr, DecidableEq

def EmbedAuthor.new (name : String) (url icon_url : Option String) : EmbedAuthor :=
  { name := name, url := url, icon_url := icon_url }

structure Embed where
  title : Option String
  embed_type : String
  description : Option String
  url : Option String
  timestamp : Option String
  color : Option String
  footer : Option EmbedFooter
  image : Option EmbedUrlSource
  video : Option EmbedUrlSource
  thumbnail : Option EmbedUrlSource
  provider : Option EmbedProvider
  author : Option EmbedAuthor
  fields : List EmbedField
  deriving Repr, DecidableEq

def Embed.new : Embed :=
  { title := none, embed_type := "rich", description := none, url := none,
    timestamp := none, color := none, footer := none, image := none,
    video := none, thumbnail := none, provider := none, author := none,
    fields := [] }

/-- The `Embed::field` builder of models.rs.  The source panics when the
embed already holds `fields_len_interval().max_allowed` fields; the panic is
modelled as `none`. -/
def Embed.field (e : Embed) (name value : String) (inline : Bool) : Option Embed :=
  if e.fields.length = (Embed.fields_len_interval).max_allowed then
    none
  else
    some { e with fields := e.fields ++ [EmbedField.new name value inline] }

structure PartialEmoji where
  id : String
  name : String
  animated : Option Bool
  deriving Repr, DecidableEq

inductive ButtonStyles where
  | Primary
  | Secondary
  | Success
  | Danger
  | Link
  deriving Repr, DecidableEq

inductive NonLinkButtonStyle where
  | Primary
  | Secondary
  | Success
  | Danger
  deriving Repr, DecidableEq

def NonLinkButtonStyle.get_button_style : NonLinkButtonStyle → ButtonStyles
  | NonLinkButtonStyle.Primary => ButtonStyles.Primary
  | NonLinkButtonStyle.Secondary => ButtonStyles.Secondary
  | NonLinkButtonStyle.Success => ButtonStyles.Success
  | NonLinkButtonStyle.Danger => ButtonStyles.Danger

/-- The serializable button struct of models.rs (`component_type` is always 2). -/
structure Button where
  component_type : Int
  style : Option ButtonStyles
  label : Option String
  emoji : Option PartialEmoji
  custom_id : Option String
  url : Option String
  disabled : Option Bool
  deriving Repr, DecidableEq

def Button.new (style : Option ButtonStyles) (label : Option String)
    (emoji : Option PartialEmoji) (url : Option String)
    (custom_id : Option String) (disabled : Option Bool) : Button :=
  { component_type := 2, style := style, label := label, emoji := emoji,
    custom_id := custom_id, url := url, disabled := disabled }

structure ButtonCommonBase where
  label : Option String
  emoji : Option PartialEmoji
  disabled : Option Bool
  deriving Repr, DecidableEq

structure LinkButton where
  button_base : ButtonCommonBase
  url : Option String
  deriving Repr, DecidableEq

def LinkButton.new : LinkButton :=
  { button_base := { label := none, emoji := none, disabled := none }, url := none }

def LinkButton.url_set (b : LinkButton) (url : String) : LinkButton :=
  { b with url := some url }

def LinkButton.label_set (b : LinkButton) (label : String) : LinkButton :=
  { b with button_base := { b.button_base with label := some label } }

structure RegularButton where
  button_base : ButtonCommonBase
  custom_id : Option String
  style : Option NonLinkButtonStyle
  deriving Repr, DecidableEq

def RegularButton.new : RegularButton :=
  { button_base := { label := none, emoji := none, disabled := none },
    custom_id := none, style := none }

def RegularButton.custom_id_set (b : RegularButton) (id : String) : RegularButton :=
  { b with custom_id := some id }

def RegularButton.style_set (b : RegularButton) (s : NonLinkButtonStyle) : RegularButton :=
  { b with style := some s }

def RegularButton.label_set (b : RegularButton) (label : String) : RegularButton :=
  { b with button_base := { b.button_base with label := some label } }

def LinkButton.to_serializable_button (b : LinkButton) : Button :=
  Button.new (some ButtonStyles.Link) b.button_base.label b.button_base.emoji
    b.url none b.button_base.disabled

def RegularButton.to_serializable_button (b : RegularButton) : Button :=
  Button.new (b.style.map NonLinkButtonStyle.get_button_style)
    b.button_base.label b.button_base.emoji none b.custom_id b.button_base.disabled

inductive NonCompositeComponent where
  | Button (b : Button)
  deriving Repr, DecidableEq

structure ActionRow where
  component_type : Nat
  components : List NonCompositeComponent
  deriving Repr, DecidableEq

def ActionRow.new : ActionRow :=
  { component_type := 1, components := [] }

def ActionRow.link_button (row : ActionRow) (f : LinkButton → LinkButton) : ActionRow :=
  { row with components :=
      row.components ++ [NonCompositeComponent.Button (f LinkButton.new).to_serializable_button] }

def ActionRow.regular_button (row : ActionRow) (f : RegularButton → RegularButton) : ActionRow :=
  { row with components :=
      row.components ++ [NonCompositeComponent.Button (f RegularButton.new).to_serializable_button] }

structure AllowedMentions where
  parse : Option (List String)
  roles : Option (List String)
  users : Option (List String)
  replied_user : Bool
  deriving Repr, DecidableEq

structure Message where
  content : Option String
  username : Option String
  avatar_url : Option String
  tts : Bool
  embeds : List Embed
  allow_mentions : Option AllowedMentions
  action_rows : List ActionRow
  deriving Repr, DecidableEq

def Message.new : Message :=
  { content := none, username := none, avatar_url := none, tts := false,
    embeds := [], allow_mentions := none, action_rows := [] }

def Message.embed (m : Message) (f : Embed → Embed) : Message :=
  { m with embeds := m.embeds ++ [f Embed.new] }

def Message.action_row (m : Message) (f : ActionRow → ActionRow) : Message :=
  { m with action_rows := m.action_rows ++ [f ActionRow.new] }

/- Context operations, from `impl MessageContext` in models.rs. -/

def MessageContext.register_custom_id (ctx : MessageContext) (id : String) :
    MessageContext × Except String Unit :=
  match interval_check Message.custom_id_len_interval id.length "Custom ID length" with
  | Except.error e => (ctx, Except.error e)
  | Except.ok _ =>
    if id ∈ ctx.custom_ids then
      (ctx, Except.error ("Attempt to use the same custom ID (" ++ id ++ ") twice!"))
    else
      ({ ctx with custom_ids := id :: ctx.custom_ids }, Except.ok ())

/-- Character total a single embed contributes to the running counter in
`MessageContext::register_embed`: title, description, footer text, author
name, and every field name and value. -/
def Embed.textContribution (embed : Embed) : Nat :=
  (embed.title.map String.length).getD 0 +
  (embed.description.map String.length).getD 0 +
  (embed.footer.map fun f => f.text.length).getD 0 +
  (embed.author.map fun a => a.name.length).getD 0 +
  embed.fields.foldl (fun acc f => acc + (f.name.length + f.value.length)) 0

def MessageContext.register_embed (ctx : MessageContext) (embed : Embed) :
    MessageContext × Except String Unit :=
  let counter := ctx.embeds_character_counter + embed.textContribution
  let ctx := { ctx with embeds_character_counter := counter }
  (ctx, interval_check Message.embed_total_text_len_interval counter
          "Character count across all embeds")

def MessageContext.register_button (ctx : MessageContext) (id : String) :
    MessageContext × Except String Unit :=
  match ctx.register_custom_id id with
  | (ctx, Except.error e) => (ctx, Except.error e)
  | (ctx, Except.ok _) =>
    let ctx := { ctx with button_count_in_action_row := ctx.button_count_in_action_row + 1 }
    (ctx, interval_check ActionRow.button_count_interval ctx.button_count_in_action_row
            "Button count")

def MessageContext.register_action_row (ctx : MessageContext) : MessageContext :=
  { ctx with button_count_in_action_row := 0 }

/- The compatibility checker, from `impl DiscordApiCompatible for ...`. -/

/-- Mirrors `Result::and` as used in the source folds: keep the first error,
otherwise take the second result. -/
def exceptAnd : Except String Unit → Except String Unit → Except String Unit
  | Except.error e, _ => Except.error e
  | Except.ok _, r => r

/-- One step of the source's `iter().fold(Ok(()), |acc, x| acc.and(x.check(ctx)))`:
the check runs (and mutates the context) even when `acc` is already an error;
only its result is discarded by `exceptAnd`. -/
def checkStep (check : α → MessageContext → MessageContext × Except String Unit)
    (acc : MessageContext × Except String Unit) (item : α) :
    MessageContext × Except String Unit :=
  let r := check item acc.1
  (r.1, exceptAnd acc.2 r.2)

def checkFoldFrom (check : α → MessageContext → MessageContext × Except String Unit)
    (items : List α) (acc : MessageContext × Except String Unit) :
    MessageContext × Except String Unit :=
  items.foldl (checkStep check) acc

def checkFold (check : α → MessageContext → MessageContext × Except String Unit)
    (items : List α) (ctx : MessageContext) : MessageContext × Except String Unit :=
  checkFoldFrom check items (ctx, Except.ok ())

def Button.check_compatibility (b : Button) (ctx : MessageContext) :
    MessageContext × Except String Unit :=
  match (match b.label with
         | some label =>
             interval_check Message.label_len_interval label.length "Label length"
         | none => Except.ok ()) with
  | Except.error e => (ctx, Except.error e)
  | Except.ok _ =>
    match b.style with
    | none => (ctx, Except.error "Button style must be set!")
    | some ButtonStyles.Link =>
      if b.url.isNone then
        (ctx, Except.error "Url of a Link button must be set!")
      else
        (ctx, Except.ok ())
    | some ButtonStyles.Danger | some ButtonStyles.Primary
    | some ButtonStyles.Success | some ButtonStyles.Secondary =>
      match b.custom_id with
      | some id => ctx.register_button id
      | none => (ctx, Except.error "Custom ID of a NonLink button must be set!")

def NonCompositeComponent.check_compatibility (c : NonCompositeComponent)
    (ctx : MessageContext) : MessageContext × Except String Unit :=
  match c with
  | NonCompositeComponent.Button b => b.check_compatibility ctx

def ActionRow.check_compatibility (row : ActionRow) (ctx : MessageContext) :
    MessageContext × Except String Unit :=
  let ctx := ctx.register_action_row
  if row.components.isEmpty then
    (ctx, Except.error "Empty action row detected!")
  else
    checkFold NonCompositeComponent.check_compatibility row.components ctx

def EmbedAuthor.check_compatibility (a : EmbedAuthor) (ctx : MessageContext) :
    MessageContext × Except String Unit :=
  (ctx, interval_check EmbedAuthor.name_len_interval a.name.length
          "Embed author name length")

def EmbedFooter.check_compatibility (f : EmbedFooter) (ctx : MessageContext) :
    MessageContext × Except String Unit :=
  (ctx, interval_check EmbedFooter.text_len_interval f.text.length
          "Embed footer text length")

def EmbedField.check_compatibility (f : EmbedField) (ctx : MessageContext) :
    MessageContext × Except String Unit :=
  (ctx, do
    interval_check EmbedField.value_len_interval f.value.length
      "Embed field value length"
    interval_check EmbedField.name_len_interval f.name.length
      "Embed field name length")

/-- The `for field in self.fields.iter()` loop of `Embed::check_compatibility`:
a genuinely short-circuiting sequence (the `?` operator returns at the first
error). -/
def checkEmbedFields : List EmbedField → MessageContext →
    MessageContext × Except String Unit
  | [], ctx => (ctx, Except.ok ())
  | f :: rest, ctx =>
    match f.check_compatibility ctx with
    | (ctx, Except.error e) => (ctx, Except.error e)
    | (ctx, Except.ok _) => checkEmbedFields rest ctx

def Embed.check_compatibility (embed : Embed) (ctx : MessageContext) :
    MessageContext × Except String Unit :=
  match ctx.register_embed embed with
  | (ctx, Except.error e) => (ctx, Except.error e)
  | (ctx, Except.ok _) =>
  match interval_check Embed.fields_len_interval embed.fields.length "Field count" with
  | Except.error e => (ctx, Except.error e)
  | Except.ok _ =>
  match (match embed.title with
         | some title =>
             interval_check Embed.title_len_interval title.length "Embed title length"
         | none => Except.ok ()) with
  | Except.error e => (ctx, Except.error e)
  | Except.ok _ =>
  match (match embed.description with
         | some description =>
             interval_check Embed.description_len_interval description.length
               "Embed description length"
         | none => Except.ok ()) with
  | Except.error e => (ctx, Except.error e)
  | Except.ok _ =>
  match (match embed.author with
         | some a => a.check_compatibility ctx
         | none => (ctx, Except.ok ())) with
  | (ctx, Except.error e) => (ctx, Except.error e)
  | (ctx, Except.ok _) =>
  match (match embed.footer with
         | some f => f.check_compatibility ctx
         | none => (ctx, Except.ok ())) with
  | (ctx, Except.error e) => (ctx, Except.error e)
  | (ctx, Except.ok _) => checkEmbedFields embed.fields ctx

def Message.check_compatibility (m : Message) (ctx : MessageContext) :
    MessageContext × Except String Unit :=
  match interval_check Message.action_row_count_interval m.action_rows.length
          "Action row count" with
  | Except.error e => (ctx, Except.error e)
  | Except.ok _ =>
    match checkFold Embed.check_compatibility m.embeds ctx with
    | (ctx, Except.error e) => (ctx, Except.error e)
    | (ctx, Except.ok _) =>
        checkFold ActionRow.check_compatibility m.action_rows ctx

/-- The client send operation of client.rs: build the message from a fresh
`Message::new`, validate it with a fresh context, and on failure return the
validation message wrapped unaltered (the `io::Error` with kind
`InvalidInput`); only on success is the message serialized and transmitted.
The HTTP transmission is abstracted as the `transmit` parameter, applied
inside the success branch only. -/
def WebhookClient.send (transmit : Message → Bool)
    (build : Message → Message) : Except String Bool :=
  match (build Message.new).check_compatibility MessageContext.new with
  | (_, Except.error error_message) => Except.error error_message
  | (_, Except.ok _) => Except.ok (transmit (build Message.new))

/- Reference checker following the specification's words, used to state the
fail-fast/document-order claim as a refinement of the source checker. -/

/-- Sequential scan that stops at the first failing entity, the traversal the
specification describes ("validate every entity in order, short-circuiting on
the first failure"). -/
def checkSeq (check : α → MessageContext → MessageContext × Except String Unit) :
    List α → MessageContext → MessageContext × Except String Unit
  | [], ctx => (ctx, Except.ok ())
  | x :: xs, ctx =>
    match check x ctx with
    | (ctx, Except.error e) => (ctx, Except.error e)
    | (ctx, Except.ok _) => checkSeq check xs ctx

/-- Reference action-row check, following the specification's words: reset the
per-row button counter, fail on an empty row, then validate the components in
insertion order, stopping at the first failure. -/
def ActionRow.specCheck (row : ActionRow) (ctx : MessageContext) :
    MessageContext × Except String Unit :=
  let ctx := ctx.register_action_row
  if row.components.isEmpty then
    (ctx, Except.error "Empty action row detected!")
  else
    checkSeq NonCompositeComponent.check_compatibility row.components ctx

/-- Reference message check, following the specification's words: validate the
action-row count first, then every embed in document order stopping at the
first failure, then every action row in document order stopping at the first
failure. -/
def Message.specCheck (m : Message) (ctx : MessageContext) :
    MessageContext × Except String Unit :=
  match interval_check Message.action_row_count_interval m.action_rows.length
          "Action row count" with
  | Except.error e => (ctx, Except.error e)
  | Except.ok _ =>
    match checkSeq Embed.check_compatibility m.embeds ctx with
    | (ctx, Except.error e) => (ctx, Except.error e)
    | (ctx, Except.ok _) => checkSeq ActionRow.specCheck m.action_rows ctx

/- Concrete fixtures used by the concrete parts of the claims. -/

/-- An action row holding one regular Primary button per id, built through the
builder API. -/
def rowOfButtons (ids : List String) : ActionRow :=
  ids.foldl
    (fun row id =>
      row.regular_button (fun b => (b.custom_id_set id).style_set NonLinkButtonStyle.Primary))
    ActionRow.new

/-- One action row with six regular buttons carrying distinct valid custom ids. -/
def sixButtonRowMsg : Message :=
  Message.new.action_row (fun _ => rowOfButtons ["0", "1", "2", "3", "4", "5"])

/-- Five action rows with five regular buttons each, 25 distinct custom ids. -/
def fiveByFiveMsg : Message :=
  (List.range 5).foldl
    (fun m i =>
      m.action_row
        (fun _ => rowOfButtons ((List.range 5).map (fun j => toString i ++ toString j))))
    Message.new

/-- A string of exactly 4096 characters, the maximum single-embed description
length. -/
def longDescription : String := String.mk (List.replicate 4096 'a')

def bigEmbed : Embed := { Embed.new with description := some longDescription }

/-- A message with two embeds whose descriptions are each exactly 4096
characters long. -/
def twoBigEmbedsMsg : Message := { Message.new with embeds := [bigEmbed, bigEmbed] }

def smallField : EmbedField := EmbedField.new "a" "b" false

def embed25 : Embed := { Embed.new with fields := List.replicate 25 smallField }

def embed26 : Embed := { Embed.new with fields := List.replicate 26 smallField }

/-- A concrete link button with only a label and a url, built through the
builder API. -/
def labelledLinkButton : Button :=
  ((LinkButton.new.label_set "test").url_set "https://example.com").to_serializable_button

/-- Message build that produces one empty action row. -/
def badBuild : Message → Message := fun m => m.action_row (fun row => row)

/-- A message with six action rows, each empty (so each also violates the
non-empty-row rule on its own). -/
def sixEmptyRowsMsg : Message :=
  { Message.new with action_rows := List.replicate 6 ActionRow.new }

/-- Regular button built with a custom id but no style. -/
def noStyleButton : Button :=
  (RegularButton.new.custom_id_set "0").to_serializable_button

/-- Regular button built with a style but no custom id. -/
def noCustomIdButton : Button :=
  (RegularButton.new.style_set NonLinkButtonStyle.Primary).to_serializable_button

/-- Link button built with neither url nor label. -/
def noUrlLinkButton : Button :=
  LinkButton.new.to_serializable_button

/-- Regular Primary button with the given custom id. -/
def primaryButton (id : String) : Button :=
  ((RegularButton.new.custom_id_set id).style_set NonLinkButtonStyle.Primary).to_serializable_button

/-- A label of 81 characters, one over the label-length maximum. -/
def overlongLabel : String := String.mk (List.replicate 81 'x')

/-- Regular button whose label exceeds the 80-character limit. -/
def longLabelButton : Button :=
  ((((RegularButton.new.style_set NonLinkButtonStyle.Primary).custom_id_set
      "0").label_set overlongLabel)).to_serializable_button

/-! Helper lemmas shared by several claims. -/

theorem interval_check_eq (i : Interval) (v : Nat) (name : String) :
    interval_check i v name =
      (if i.min_allowed ≤ v ∧ v ≤ i.max_allowed then Except.ok ()
       else Except.error (intervalErrorMsg name v i)) := by
  by_cases h1 : i.min_allowed ≤ v
  · by_cases h2 : v ≤ i.max_allowed
    · simp [interval_check, Interval.contains, ge_iff_le, h1, h2]
    · simp [interval_check, Interval.contains, ge_iff_le, h1, h2]
  · simp [interval_check, Interval.contains, ge_iff_le, h1]

theorem register_custom_id_eq (ctx : MessageContext) (id : String) :
    ctx.register_custom_id id =
      (if 1 ≤ id.length ∧ id.length ≤ 100 then
        (if id ∈ ctx.custom_ids then
          (ctx, Except.error ("Attempt to use the same custom ID (" ++ id ++ ") twice!"))
         else
          ({ ctx with custom_ids := id :: ctx.custom_ids }, Except.ok ()))
       else
        (ctx, Except.error
          (intervalErrorMsg "Custom ID length" id.length Message.custom_id_len_interval))) := by
  unfold MessageContext.register_custom_id
  rw [interval_check_eq]
  simp only [Message.custom_id_len_interval, Interval.from_min_max]
  by_cases h : 1 ≤ id.length ∧ id.length ≤ 100
  · rw [if_pos h, if_pos h]
  · rw [if_neg h, if_neg h]

theorem longDescription_length : longDescription.length = 4096 := by
  show (String.mk (List.replicate 4096 'a')).length = 4096
  show (List.replicate 4096 'a').length = 4096
  exact List.length_replicate 4096 'a'

theorem register_embed_eq (ctx : MessageContext) (embed : Embed) :
    ctx.register_embed embed =
      ({ ctx with embeds_character_counter :=
            ctx.embeds_character_counter + embed.textContribution },
       if ctx.embeds_character_counter + embed.textContribution ≤ 6000 then
         Except.ok ()
       else
         Except.error (intervalErrorMsg "Character count across all embeds"
           (ctx.embeds_character_counter + embed.textContribution)
           Message.embed_total_text_len_interval)) := by
  unfold MessageContext.register_embed
  simp only [interval_check_eq, Message.embed_total_text_len_interval,
    Interval.from_min_max, Nat.zero_le, true_and]

/-- C10: a completely empty message passes validation with a fresh context. -/
theorem claim_C10_empty_message_valid :
    Message.check_compatibility Message.new MessageContext.new =
      (MessageContext.new, Except.ok ()) := rfl

/-- C1: `register_custom_id` fails with the length error exactly when the id
length falls outside the interval [1, 100]; otherwise it fails with the
duplicate-id error naming the id exactly when the id was registered earlier in
the pass (whatever row registered it); otherwise it succeeds and the id is
recorded for the remainder of the pass. -/
theorem claim_C1_register_custom_id (ctx : MessageContext) (id : String) :
    ctx.register_custom_id id =
      (if 1 ≤ id.length ∧ id.length ≤ 100 then
        (if id ∈ ctx.custom_ids then
          (ctx, Except.error ("Attempt to use the same custom ID (" ++ id ++ ") twice!"))
         else
          ({ ctx with custom_ids := id :: ctx.custom_ids }, Except.ok ()))
       else
        (ctx, Except.error
          (intervalErrorMsg "Custom ID length" id.length Message.custom_id_len_interval))) :=
  register_custom_id_eq ctx id

theorem bigEmbed_textContribution : bigEmbed.textContribution = 4096 := by
  simp [Embed.textContribution, bigEmbed, Embed.new, longDescription_length]

theorem bigEmbed_check (ctx : MessageContext) :
    Embed.check_compatibility bigEmbed ctx =
      ({ ctx with embeds_character_counter := ctx.embeds_character_counter + 4096 },
       if ctx.embeds_character_counter + 4096 ≤ 6000 then Except.ok ()
       else
         Except.error (intervalErrorMsg "Character count across all embeds"
           (ctx.embeds_character_counter + 4096)
           Message.embed_total_text_len_interval)) := by
  unfold Embed.check_compatibility
  rw [register_embed_eq, bigEmbed_textContribution]
  by_cases h : ctx.embeds_character_counter + 4096 ≤ 6000
  · rw [if_pos h]
    norm_num [bigEmbed, Embed.new, interval_check_eq, Embed.fields_len_interval,
      Embed.title_len_interval, Embed.description_len_interval, Interval.from_min_max,
      longDescription_length, checkEmbedFields]
  · rw [if_neg h]

/-- C2: registering an embed first adds the title, description, footer text,
author name and per-field name and value lengths to the running counter, and
then fails with the character-count-across-all-embeds error exactly when the
cumulative total exceeds 6000; the counter update is visible in the returned
context even in the failure branch (never rolled back).  In particular a
message of two embeds whose descriptions are each exactly 4096 characters
fails with the character-count error at 8192. -/
theorem claim_C2_register_embed (ctx : MessageContext) (embed : Embed) :
    ctx.register_embed embed =
      ({ ctx with embeds_character_counter :=
            ctx.embeds_character_counter + embed.textContribution },
       if ctx.embeds_character_counter + embed.textContribution ≤ 6000 then
         Except.ok ()
       else
         Except.error (intervalErrorMsg "Character count across all embeds"
           (ctx.embeds_character_counter + embed.textContribution)
           Message.embed_total_text_len_interval)) ∧
    (Message.check_compatibility twoBigEmbedsMsg MessageContext.new).2 =
      Except.error (intervalErrorMsg "Character count across all embeds" 8192
        Message.embed_total_text_len_interval) := by
  refine ⟨register_embed_eq ctx embed, ?_⟩
  show (Message.check_compatibility
    { Message.new with embeds := [bigEmbed, bigEmbed] } MessageContext.new).2 = _
  unfold Message.check_compatibility
  rw [interval_check_eq]
  norm_num [Message.action_row_count_interval, Interval.from_min_max,
    Message.new, checkFold, checkFoldFrom, checkStep, bigEmbed_check,
    MessageContext.new, exceptAnd]

theorem checkFoldFrom_error (check : α → MessageContext → MessageContext × Except String Unit)
    (items : List α) :
    ∀ (ctx : MessageContext) (e : String),
      (checkFoldFrom check items (ctx, Except.error e)).2 = Except.error e := by
  induction items with
  | nil => intro ctx e; rfl
  | cons x xs ih =>
    intro ctx e
    show (checkFoldFrom check xs (checkStep check (ctx, Except.error e) x)).2 = Except.error e
    show (checkFoldFrom check xs ((check x ctx).1, exceptAnd (Except.error e) (check x ctx).2)).2
      = Except.error e
    rw [show exceptAnd (Except.error e) (check x ctx).2 = Except.error e from rfl]
    exact ih (check x ctx).1 e

/-- The source folds (`fold(Ok(()), |acc, x| acc.and(x.check(ctx)))`) agree
with the short-circuiting scan in their returned verdict, and agree fully
(context included) whenever the scan succeeds.  Stated for two pointwise
related element checks so the source and reference action-row checks can be
compared. -/
theorem checkFold_seq (chk₁ chk₂ : α → MessageContext → MessageContext × Except String Unit)
    (hpt : ∀ (x : α) (ctx : MessageContext),
      (chk₁ x ctx).2 = (chk₂ x ctx).2 ∧
        ((chk₂ x ctx).2 = Except.ok () → chk₁ x ctx = chk₂ x ctx)) :
    ∀ (items : List α) (ctx : MessageContext),
      (checkFold chk₁ items ctx).2 = (checkSeq chk₂ items ctx).2 ∧
        ((checkSeq chk₂ items ctx).2 = Except.ok () →
          checkFold chk₁ items ctx = checkSeq chk₂ items ctx) := by
  intro items
  induction items with
  | nil => intro ctx; exact ⟨rfl, fun _ => rfl⟩
  | cons x xs ih =>
    intro ctx
    have hfold : checkFold chk₁ (x :: xs) ctx =
        checkFoldFrom chk₁ xs ((chk₁ x ctx).1, (chk₁ x ctx).2) := by
      show checkFoldFrom chk₁ xs (checkStep chk₁ (ctx, Except.ok ()) x) = _
      rfl
    rcases h2 : chk₂ x ctx with ⟨c₂, r₂⟩
    rcases r₂ with e | u
    · have h1 : (chk₁ x ctx).2 = Except.error e := by rw [(hpt x ctx).1, h2]
      have hseq : checkSeq chk₂ (x :: xs) ctx = (c₂, Except.error e) := by
        show (match chk₂ x ctx with
          | (ctx, Except.error e) => (ctx, Except.error e)
          | (ctx, Except.ok _) => checkSeq chk₂ xs ctx) = _
        rw [h2]
      refine ⟨?_, ?_⟩
      · rw [hfold, hseq, h1]
        exact checkFoldFrom_error chk₁ xs (chk₁ x ctx).1 e
      · intro hok
        rw [hseq] at hok
        exact absurd hok (by simp)
    · cases u
      have h1 : chk₁ x ctx = (c₂, Except.ok ()) := (hpt x ctx).2 (by rw [h2]) |>.trans h2
      have hseq : checkSeq chk₂ (x :: xs) ctx = checkSeq chk₂ xs c₂ := by
        show (match chk₂ x ctx with
          | (ctx, Except.error e) => (ctx, Except.error e)
          | (ctx, Except.ok _) => checkSeq chk₂ xs ctx) = _
        rw [h2]
      have hfold2 : checkFold chk₁ (x :: xs) ctx = checkFold chk₁ xs c₂ := by
        rw [hfold, h1]
        rfl
      rw [hfold2, hseq]
      exact ih c₂

theorem actionRow_check_seq (row : ActionRow) (ctx : MessageContext) :
    (row.check_compatibility ctx).2 = (row.specCheck ctx).2 ∧
      ((row.specCheck ctx).2 = Except.ok () →
        row.check_compatibility ctx = row.specCheck ctx) := by
  unfold ActionRow.check_compatibility ActionRow.specCheck
  by_cases h : row.components.isEmpty
  · rw [if_pos h, if_pos h]
    exact ⟨rfl, fun hok => rfl⟩
  · rw [if_neg h, if_neg h]
    exact checkFold_seq _ _ (fun x c => ⟨rfl, fun _ => rfl⟩) row.components _

/-- C3: the checker's verdict coincides, for every message and every starting
context, with the verdict of the reference fail-fast checker `Message.specCheck`
that validates the action-row count, then every embed in document order, then
every action row in document order, stopping at the first failure — so a
message with an invalid entity yields exactly the error of the first invalid
entity in that order. -/
theorem claim_C3_first_error (m : Message) (ctx : MessageContext) :
    (m.check_compatibility ctx).2 = (m.specCheck ctx).2 := by
  unfold Message.check_compatibility Message.specCheck
  rcases hac : interval_check Message.action_row_count_interval m.action_rows.length
      "Action row count" with e | u
  · rfl
  · cases u
    have hemb := checkFold_seq Embed.check_compatibility Embed.check_compatibility
      (fun x c => ⟨rfl, fun _ => rfl⟩) m.embeds ctx
    rcases hseq : checkSeq Embed.check_compatibility m.embeds ctx with ⟨c, r⟩
    rcases r with e | u
    · have : (checkFold Embed.check_compatibility m.embeds ctx).2 = Except.error e := by
        rw [hemb.1, hseq]
      rcases hfold : checkFold Embed.check_compatibility m.embeds ctx with ⟨cf, rf⟩
      rw [hfold] at this
      simp only at this
      rw [this]
    · cases u
      have : checkFold Embed.check_compatibility m.embeds ctx = (c, Except.ok ()) := by
        rw [hemb.2 (by rw [hseq]), hseq]
      rw [this]
      exact (checkFold_seq ActionRow.check_compatibility ActionRow.specCheck
        actionRow_check_seq m.action_rows c).1

/-- C4: the per-row button counter is reset to 0 by `register_action_row`
(called at the start of each action row's validation); a Link-style button is
checked without touching the context at all (no uniqueness or count
registration); a single row of six regular buttons with distinct valid ids
fails with the button-count error, while five rows of five buttons each (25
distinct ids) validate successfully. -/
theorem claim_C4_row_scoped_button_count (ctx : MessageContext) :
    MessageContext.register_action_row ctx =
      { ctx with button_count_in_action_row := 0 } ∧
    (∀ b : Button, b.style = some ButtonStyles.Link →
      (b.check_compatibility ctx).1 = ctx) ∧
    (Message.check_compatibility sixButtonRowMsg MessageContext.new).2 =
      Except.error (intervalErrorMsg "Button count" 6 ActionRow.button_count_interval) ∧
    (Message.check_compatibility fiveByFiveMsg MessageContext.new).2 = Except.ok () := by
  refine ⟨rfl, ?_, rfl, rfl⟩
  intro b hb
  unfold Button.check_compatibility
  rw [hb]
  split
  · rfl
  · show (if b.url.isNone = true then (ctx, Except.error "Url of a Link button must be set!")
        else (ctx, Except.ok ())).1 = ctx
    by_cases hu : b.url.isNone
    · rw [if_pos hu]
    · rw [if_neg hu]

theorem claim_C4_witness :
    MessageContext.register_action_row MessageContext.new =
      { MessageContext.new with button_count_in_action_row := 0 } ∧
    (Button.check_compatibility labelledLinkButton MessageContext.new).1 =
      MessageContext.new :=
  ⟨(claim_C4_row_scoped_button_count MessageContext.new).1,
   (claim_C4_row_scoped_button_count MessageContext.new).2.1 labelledLinkButton rfl⟩

/-- C5: a button's label length is checked first when a label is present;
then a style-less button fails with the style error, a Link button without a
url fails with the url error (and with a url succeeds), and a non-Link button
without a custom id fails with the custom-id error, while one with a custom id
delegates to `register_button`; a link button with only a label and a url
validates successfully. -/
theorem claim_C5_button_check (ctx : MessageContext) (b : Button) :
    (∀ l, b.label = some l → ¬ l.length ≤ 80 →
       b.check_compatibility ctx =
         (ctx, Except.error
           (intervalErrorMsg "Label length" l.length Message.label_len_interval))) ∧
    ((∀ l, b.label = some l → l.length ≤ 80) →
      (b.style = none →
         b.check_compatibility ctx = (ctx, Except.error "Button style must be set!")) ∧
      (b.style = some ButtonStyles.Link → b.url = none →
         b.check_compatibility ctx =
           (ctx, Except.error "Url of a Link button must be set!")) ∧
      (b.style = some ButtonStyles.Link → ∀ u, b.url = some u →
         b.check_compatibility ctx = (ctx, Except.ok ())) ∧
      (∀ s, b.style = some s → s ≠ ButtonStyles.Link → b.custom_id = none →
         b.check_compatibility ctx =
           (ctx, Except.error "Custom ID of a NonLink button must be set!")) ∧
      (∀ s id, b.style = some s → s ≠ ButtonStyles.Link → b.custom_id = some id →
         b.check_compatibility ctx = ctx.register_button id)) ∧
    (Button.check_compatibility labelledLinkButton MessageContext.new).2 =
      Except.ok () := by
  have hlab : ∀ (_ : ∀ l, b.label = some l → l.length ≤ 80),
      (match b.label with
       | some label =>
           interval_check Message.label_len_interval label.length "Label length"
       | none => Except.ok ()) = Except.ok () := by
    intro hok
    cases hbl : b.label with
    | none => rfl
    | some l =>
      show interval_check Message.label_len_interval l.length "Label length" = Except.ok ()
      rw [interval_check_eq]
      simp only [Message.label_len_interval, Interval.from_min_max]
      exact if_pos ⟨Nat.zero_le _, hok l hbl⟩
  refine ⟨?_, fun hok => ⟨?_, ?_, ?_, ?_, ?_⟩, rfl⟩
  · intro l hl hlen
    have hres : (match b.label with
        | some label =>
            interval_check Message.label_len_interval label.length "Label length"
        | none => Except.ok ()) =
        Except.error (intervalErrorMsg "Label length" l.length Message.label_len_interval) := by
      rw [hl]
      show interval_check Message.label_len_interval l.length "Label length" = _
      rw [interval_check_eq]
      simp only [Message.label_len_interval, Interval.from_min_max]
      exact if_neg (fun hc => hlen hc.2)
    unfold Button.check_compatibility
    rw [hres]
  · intro hs
    unfold Button.check_compatibility
    rw [hlab hok, hs]
  · intro hs hu
    unfold Button.check_compatibility
    rw [hlab hok, hs, hu]
    rfl
  · intro hs u hu
    unfold Button.check_compatibility
    rw [hlab hok, hs, hu]
    rfl
  · intro s hs hne hcid
    unfold Button.check_compatibility
    rw [hlab hok, hs]
    cases s with
    | Link => exact absurd rfl hne
    | Primary => rw [hcid]
    | Secondary => rw [hcid]
    | Success => rw [hcid]
    | Danger => rw [hcid]
  · intro s id hs hne hcid
    unfold Button.check_compatibility
    rw [hlab hok, hs]
    cases s with
    | Link => exact absurd rfl hne
    | Primary => rw [hcid]
    | Secondary => rw [hcid]
    | Success => rw [hcid]
    | Danger => rw [hcid]

theorem claim_C5_witness :
    Button.check_compatibility noStyleButton MessageContext.new =
      (MessageContext.new, Except.error "Button style must be set!") ∧
    Button.check_compatibility noUrlLinkButton MessageContext.new =
      (MessageContext.new, Except.error "Url of a Link button must be set!") ∧
    Button.check_compatibility labelledLinkButton MessageContext.new =
      (MessageContext.new, Except.ok ()) ∧
    Button.check_compatibility noCustomIdButton MessageContext.new =
      (MessageContext.new, Except.error "Custom ID of a NonLink button must be set!") ∧
    Button.check_compatibility (primaryButton "0") MessageContext.new =
      MessageContext.new.register_button "0" ∧
    Button.check_compatibility longLabelButton MessageContext.new =
      (MessageContext.new, Except.error
        (intervalErrorMsg "Label length" 81 Message.label_len_interval)) := by
  refine ⟨?_, ?_, ?_, ?_, ?_, ?_⟩
  · exact ((claim_C5_button_check MessageContext.new noStyleButton).2.1
      (fun l hl => nomatch hl)).1 rfl
  · exact ((claim_C5_button_check MessageContext.new noUrlLinkButton).2.1
      (fun l hl => nomatch hl)).2.1 rfl rfl
  · exact Prod.ext rfl (((claim_C5_button_check MessageContext.new
      labelledLinkButton).2.1 (fun l hl => by injection hl with h; rw [← h]; decide)).2.2.1
      rfl "https://example.com" rfl ▸ rfl)
  · exact ((claim_C5_button_check MessageContext.new noCustomIdButton).2.1
      (fun l hl => nomatch hl)).2.2.2.1 ButtonStyles.Primary rfl (by decide) rfl
  · exact ((claim_C5_button_check MessageContext.new (primaryButton "0")).2.1
      (fun l hl => nomatch hl)).2.2.2.2 ButtonStyles.Primary "0" rfl (by decide) rfl
  · exact (claim_C5_button_check MessageContext.new longLabelButton).1
      overlongLabel rfl (by decide)

/-- C6: the action-row count is validated against [0, 5] before any embed or
action row is visited: any message with more than 5 rows fails immediately
with the action-row-count error and an untouched context, whatever its embeds
and rows contain; a message with exactly 5 valid rows passes. -/
theorem claim_C6_action_row_count_first (m : Message) (ctx : MessageContext)
    (h : 5 < m.action_rows.length) :
    m.check_compatibility ctx =
      (ctx, Except.error (intervalErrorMsg "Action row count" m.action_rows.length
        Message.action_row_count_interval)) ∧
    (Message.check_compatibility fiveByFiveMsg MessageContext.new).2 =
      Except.ok () := by
  refine ⟨?_, rfl⟩
  unfold Message.check_compatibility
  rw [interval_check_eq]
  simp only [Message.action_row_count_interval, Interval.from_min_max]
  rw [if_neg (by omega)]

theorem claim_C6_witness :
    Message.check_compatibility sixEmptyRowsMsg MessageContext.new =
      (MessageContext.new, Except.error (intervalErrorMsg "Action row count" 6
        Message.action_row_count_interval)) ∧
    (Message.check_compatibility fiveByFiveMsg MessageContext.new).2 =
      Except.ok () :=
  claim_C6_action_row_count_first sixEmptyRowsMsg MessageContext.new (by decide)

/-- C7 counterexample: the claim says the 25-field cap is enforced by the
checker and not by the builder, but `Embed::field` itself refuses (panics,
modelled as `none`) when a 26th field is added to an embed that already holds
25 fields. -/
theorem claim_C7_counterexample : Embed.field embed25 "a" "b" false = none := rfl

/-- C7 (amended): an embed holding 26 fields fails validation with the
field-count error and one holding 25 fields validates successfully; in
addition to the checker, the `Embed::field` builder enforces the cap by
panicking on an embed that already has 25 fields, and otherwise appends the
field. -/
theorem claim_C7_field_count :
    (Embed.check_compatibility embed26 MessageContext.new).2 =
      Except.error (intervalErrorMsg "Field count" 26 Embed.fields_len_interval) ∧
    (Embed.check_compatibility embed25 MessageContext.new).2 = Except.ok () ∧
    (∀ (e : Embed) (n v : String) (i : Bool), e.fields.length = 25 →
       Embed.field e n v i = none) ∧
    (∀ (e : Embed) (n v : String) (i : Bool), e.fields.length ≠ 25 →
       Embed.field e n v i =
         some { e with fields := e.fields ++ [EmbedField.new n v i] }) := by
  refine ⟨rfl, rfl, ?_, ?_⟩
  · intro e n v i h
    simp [Embed.field, Embed.fields_len_interval, Interval.from_min_max, h]
  · intro e n v i h
    simp [Embed.field, Embed.fields_len_interval, Interval.from_min_max, h]

theorem claim_C7_witness :
    Embed.field embed25 "c" "d" true = none ∧
    Embed.field Embed.new "c" "d" true =
      some { Embed.new with fields := [EmbedField.new "c" "d" true] } :=
  ⟨claim_C7_field_count.2.2.1 embed25 "c" "d" true (by decide),
   claim_C7_field_count.2.2.2 Embed.new "c" "d" true (by decide)⟩

theorem string_head_ne (s t : String) (h : s.data.head? ≠ t.data.head?) : s ≠ t :=
  fun e => h (congrArg (fun x => x.data.head?) e)

theorem head_append_of_some {s : String} (t : String) {c : Char}
    (h : s.data.head? = some c) : (s ++ t).data.head? = some c := by
  rw [String.data_append, List.head?_append, h]
  rfl

theorem intervalErrorMsg_head (field : String) {c : Char}
    (h : field.data.head? = some c) (v : Nat) (i : Interval) :
    (intervalErrorMsg field v i).data.head? = some c := by
  unfold intervalErrorMsg
  exact head_append_of_some _ (head_append_of_some _ (head_append_of_some _
    (head_append_of_some _ (head_append_of_some _ (head_append_of_some _
      (head_append_of_some _ h))))))

theorem interval_check_error_head (i : Interval) (v : Nat) (name s : String)
    {c : Char} (hc : name.data.head? = some c)
    (h : interval_check i v name = Except.error s) : s.data.head? = some c := by
  rw [interval_check_eq] at h
  by_cases hin : i.min_allowed ≤ v ∧ v ≤ i.max_allowed
  · rw [if_pos hin] at h
    exact nomatch h
  · rw [if_neg hin] at h
    injection h with h
    rw [← h]
    exact intervalErrorMsg_head name hc v i

theorem register_custom_id_error_head (ctx : MessageContext) (id s : String)
    (h : (ctx.register_custom_id id).2 = Except.error s) :
    s.data.head? = some 'C' ∨ s.data.head? = some 'A' := by
  rw [register_custom_id_eq] at h
  by_cases h1 : 1 ≤ id.length ∧ id.length ≤ 100
  · rw [if_pos h1] at h
    by_cases h2 : id ∈ ctx.custom_ids
    · rw [if_pos h2] at h
      have h' : Except.error ("Attempt to use the same custom ID (" ++ id ++ ") twice!")
          = Except.error s := h
      injection h' with h'
      rw [← h']
      exact Or.inr (head_append_of_some _ (head_append_of_some _ rfl))
    · rw [if_neg h2] at h
      exact nomatch h
  · rw [if_neg h1] at h
    have h' : Except.error (intervalErrorMsg "Custom ID length" id.length
        Message.custom_id_len_interval) = Except.error s := h
    injection h' with h'
    rw [← h']
    exact Or.inl (intervalErrorMsg_head "Custom ID length" (c := 'C') rfl _ _)

theorem register_button_error_head (ctx : MessageContext) (id s : String)
    (h : (ctx.register_button id).2 = Except.error s) :
    s.data.head? = some 'C' ∨ s.data.head? = some 'A' ∨ s.data.head? = some 'B' := by
  unfold MessageContext.register_button at h
  rcases hrc : ctx.register_custom_id id with ⟨c1, r1⟩
  rw [hrc] at h
  rcases r1 with e | u
  · have h' : Except.error e = Except.error s := h
    injection h' with h'
    subst h'
    rcases register_custom_id_error_head ctx id e (by rw [hrc]) with hh | hh
    · exact Or.inl hh
    · exact Or.inr (Or.inl hh)
  · have h' : interval_check ActionRow.button_count_interval
        (c1.button_count_in_action_row + 1) "Button count" = Except.error s := h
    exact Or.inr (Or.inr (interval_check_error_head ActionRow.button_count_interval
      (c1.button_count_in_action_row + 1) "Button count" s (c := 'B') rfl h'))

theorem button_check_error_ne_empty (b : Button) (ctx : MessageContext) (s : String)
    (h : (b.check_compatibility ctx).2 = Except.error s) :
    s ≠ "Empty action row detected!" := by
  apply string_head_ne
  rw [show ("Empty action row detected!").data.head? = some 'E' from rfl]
  unfold Button.check_compatibility at h
  rcases hlr : (match b.label with
      | some label =>
          interval_check Message.label_len_interval label.length "Label length"
      | none => Except.ok ()) with e | u
  · rw [hlr] at h
    have h' : Except.error e = Except.error s := h
    injection h' with h'
    subst h'
    rcases hbl : b.label with _ | l
    · rw [hbl] at hlr
      exact nomatch hlr
    · rw [hbl] at hlr
      have hl : interval_check Message.label_len_interval l.length "Label length"
          = Except.error e := hlr
      rw [interval_check_error_head Message.label_len_interval l.length
        "Label length" e (c := 'L') rfl hl]
      decide
  · rw [hlr] at h
    rcases hst : b.style with _ | st
    · rw [hst] at h
      have h' : Except.error "Button style must be set!" = Except.error s := h
      injection h' with h'
      rw [← h']
      decide
    · cases st
      case Link =>
        rw [hst] at h
        have h' : (if b.url.isNone = true then
            (ctx, Except.error "Url of a Link button must be set!")
          else (ctx, Except.ok ())).2 = Except.error s := h
        by_cases hu : b.url.isNone
        · rw [if_pos hu] at h'
          have h'' : Except.error "Url of a Link button must be set!" = Except.error s := h'
          injection h'' with h''
          rw [← h'']
          decide
        · rw [if_neg hu] at h'
          exact nomatch h'
      case Primary =>
        rw [hst] at h
        have h' : (match b.custom_id with
            | some id => ctx.register_button id
            | none => (ctx, Except.error "Custom ID of a NonLink button must be set!")).2
            = Except.error s := h
        rcases hcid : b.custom_id with _ | id
        · rw [hcid] at h'
          have h'' : Except.error "Custom ID of a NonLink button must be set!"
              = Except.error s := h'
          injection h'' with h''
          rw [← h'']
          decide
        · rw [hcid] at h'
          rcases register_button_error_head ctx id s h' with hh | hh | hh <;> rw [hh] <;> decide
      case Secondary =>
        rw [hst] at h
        have h' : (match b.custom_id with
            | some id => ctx.register_button id
            | none => (ctx, Except.error "Custom ID of a NonLink button must be set!")).2
            = Except.error s := h
        rcases hcid : b.custom_id with _ | id
        · rw [hcid] at h'
          have h'' : Except.error "Custom ID of a NonLink button must be set!"
              = Except.error s := h'
          injection h'' with h''
          rw [← h'']
          decide
        · rw [hcid] at h'
          rcases register_button_error_head ctx id s h' with hh | hh | hh <;> rw [hh] <;> decide
      case Success =>
        rw [hst] at h
        have h' : (match b.custom_id with
            | some id => ctx.register_button id
            | none => (ctx, Except.error "Custom ID of a NonLink button must be set!")).2
            = Except.error s := h
        rcases hcid : b.custom_id with _ | id
        · rw [hcid] at h'
          have h'' : Except.error "Custom ID of a NonLink button must be set!"
              = Except.error s := h'
          injection h'' with h''
          rw [← h'']
          decide
        · rw [hcid] at h'
          rcases register_button_error_head ctx id s h' with hh | hh | hh <;> rw [hh] <;> decide
      case Danger =>
        rw [hst] at h
        have h' : (match b.custom_id with
            | some id => ctx.register_button id
            | none => (ctx, Except.error "Custom ID of a NonLink button must be set!")).2
            = Except.error s := h
        rcases hcid : b.custom_id with _ | id
        · rw [hcid] at h'
          have h'' : Except.error "Custom ID of a NonLink button must be set!"
              = Except.error s := h'
          injection h'' with h''
          rw [← h'']
          decide
        · rw [hcid] at h'
          rcases register_button_error_head ctx id s h' with hh | hh | hh <;> rw [hh] <;> decide

theorem checkFoldFrom_error_source
    (check : α → MessageContext → MessageContext × Except String Unit) :
    ∀ (items : List α) (acc : MessageContext × Except String Unit) (s : String),
      (checkFoldFrom check items acc).2 = Except.error s →
      acc.2 = Except.error s ∨ ∃ x ∈ items, ∃ ctx, (check x ctx).2 = Except.error s := by
  intro items
  induction items with
  | nil => intro acc s h; exact Or.inl h
  | cons x xs ih =>
    intro acc s h
    have h' : (checkFoldFrom check xs (checkStep check acc x)).2 = Except.error s := h
    rcases ih (checkStep check acc x) s h' with hacc | ⟨y, hy, c, hc⟩
    · have h2 : exceptAnd acc.2 (check x acc.1).2 = Except.error s := hacc
      rcases hr : acc.2 with e | u
      · rw [hr] at h2
        have h3 : Except.error e = Except.error s := h2
        exact Or.inl h3
      · rw [hr] at h2
        have h3 : (check x acc.1).2 = Except.error s := h2
        exact Or.inr ⟨x, List.mem_cons_self x xs, acc.1, h3⟩
    · exact Or.inr ⟨y, List.mem_cons_of_mem x hy, c, hc⟩

/-- C8: an action row with zero components fails with the empty-composite
error, returned with the per-row button counter already reset and before any
component is visited; a row with at least one component never yields that
error. -/
theorem claim_C8_empty_action_row (row : ActionRow) (ctx : MessageContext) :
    (row.components = [] →
      row.check_compatibility ctx =
        ({ ctx with button_count_in_action_row := 0 },
         Except.error "Empty action row detected!")) ∧
    (row.components ≠ [] →
      (row.check_compatibility ctx).2 ≠ Except.error "Empty action row detected!") := by
  constructor
  · intro h
    unfold ActionRow.check_compatibility
    rw [if_pos (by simp [h])]
    rfl
  · intro h hcontra
    unfold ActionRow.check_compatibility at hcontra
    rw [if_neg (by simp [h])] at hcontra
    have hsrc := checkFoldFrom_error_source NonCompositeComponent.check_compatibility
      row.components (ctx.register_action_row, Except.ok ())
      "Empty action row detected!" hcontra
    rcases hsrc with hacc | ⟨x, _, c, hc⟩
    · exact nomatch hacc
    · rcases x with ⟨b⟩
      have hb : (b.check_compatibility c).2
          = Except.error "Empty action row detected!" := hc
      exact button_check_error_ne_empty b c _ hb rfl

theorem claim_C8_witness :
    ActionRow.check_compatibility ActionRow.new MessageContext.new =
      ({ MessageContext.new with button_count_in_action_row := 0 },
       Except.error "Empty action row detected!") ∧
    (ActionRow.check_compatibility (rowOfButtons ["0"]) MessageContext.new).2 ≠
      Except.error "Empty action row detected!" :=
  ⟨(claim_C8_empty_action_row ActionRow.new MessageContext.new).1 rfl,
   (claim_C8_empty_action_row (rowOfButtons ["0"]) MessageContext.new).2 (by decide)⟩

/-- C9: when validation of the built message fails, the client send returns
exactly the validation error (unaltered) and is independent of the transport
— the `transmit` function is never applied; only when validation succeeds is
the message handed to `transmit`. -/
theorem claim_C9_send_aborts (build : Message → Message) :
    (∀ e, (Message.check_compatibility (build Message.new) MessageContext.new).2 =
        Except.error e →
      ∀ transmit, WebhookClient.send transmit build = Except.error e) ∧
    ((Message.check_compatibility (build Message.new) MessageContext.new).2 =
        Except.ok () →
      ∀ transmit, WebhookClient.send transmit build =
        Except.ok (transmit (build Message.new))) := by
  constructor
  · intro e he transmit
    unfold WebhookClient.send
    split
    next fst msg heq =>
      rw [heq] at he
      simpa using he
    next fst a heq =>
      rw [heq] at he
      simp at he
  · intro hok transmit
    unfold WebhookClient.send
    split
    next fst msg heq =>
      rw [heq] at hok
      simp at hok
    next fst a heq =>
      rfl

theorem claim_C9_witness :
    WebhookClient.send (fun _ => true) badBuild =
      Except.error "Empty action row detected!" ∧
    WebhookClient.send (fun _ => false) badBuild =
      Except.error "Empty action row detected!" ∧
    WebhookClient.send (fun _ => true) (fun m => m) = Except.ok true :=
  ⟨(claim_C9_send_aborts badBuild).1 _ rfl _,
   (claim_C9_send_aborts badBuild).1 _ rfl _,
   (claim_C9_send_aborts (fun m => m)).2 rfl _⟩

end Webhook
